import Mathlib

/-!
Verification development for the emulator core in src/core/emu.cpp
(firebird). The definitions below are a shallow embedding of the parts of
emu.cpp that the checked properties are about: the suspend/resume snapshot
paths (emu_suspend, the snapshot branch of emu_start, emu_cleanup), the
execution loop emu_loop (modelled as a small-step phase machine), the fault
path error(), the throttle speed computation in throttle_interval_event, and
the strncpy path-field writes of emu_suspend.

External collaborators (flash, cpu, memory, sched, gdbstub, gui) live outside
the repository slice under verification; their boolean results are supplied
by oracle records and their state effects are either recorded in call traces
or modelled from the spec where the spec fixes their behaviour.
-/

namespace Firebird

/-- Pending-event bitmask cpu_events. The bit values live in emu.h, which is
not part of the source slice; modelled from the spec data model as five
distinct flags: reset requested, IRQ pending, FIQ pending,
waiting-for-interrupt, single-step debug request. -/
structure EmuEvents where
  reset : Bool
  irq : Bool
  fiq : Bool
  waiting : Bool
  debugStep : Bool
deriving DecidableEq, Repr

/-- Modelled from the spec: MODE_SVC, the supervisor-mode value of the CPSR
mode field ("supervisor mode" in the spec; emu.h is not under src). The ARM
architectural supervisor mode number is 0x13. -/
def MODE_SVC : Nat := 0x13

/-- The slice of struct arm_state that emu.cpp touches: arm.reg[15] (the
program counter, a 32-bit value kept below 2^32), arm.control and
arm.cpsr_low28. -/
structure ArmState where
  pc : Nat
  control : Nat
  cpsr_low28 : Nat
deriving DecidableEq, Repr

/-- Modelled from the spec: clock-rate identifiers of sched.h (not under
src). Only CLOCK_27M is used by emu.cpp; one other value witnesses that a
slot can carry a different clock. -/
inductive ClockId
  | clock27M
  | clockOther
deriving DecidableEq, Repr

/-- Modelled from the spec: scheduler callback identifiers. emu.cpp installs
throttle_interval_event; one other value witnesses a different callback. -/
inductive ProcId
  | throttleIntervalEvent
  | otherCallback
deriving DecidableEq, Repr

/-- One scheduler slot (sched.items[i]): its clock-rate selector and its
registered callback. none models a cleared field. -/
structure SchedItem where
  clock : Option ClockId
  proc : Option ProcId
deriving DecidableEq, Repr

/-- The scheduler state visible to emu.cpp: the SCHED_THROTTLE slot. -/
structure Sched where
  throttle : SchedItem
deriving DecidableEq, Repr

/-- Modelled from the spec: sched_reset clears all slots ("Resetting the
Scheduler clears all slots", spec 4.1). sched.c is not under src. -/
def sched_reset : Sched := { throttle := { clock := none, proc := none } }

/-- Arms the throttle slot exactly as emu.cpp does at lines 152-153 and
234-235: sched.items[SCHED_THROTTLE].clock = CLOCK_27M and
.proc = throttle_interval_event. -/
def armThrottle (sc : Sched) : Sched :=
  { sc with throttle := { clock := some ClockId.clock27M,
                          proc := some ProcId.throttleIntervalEvent } }

/-- The emulator state mutated by emu.cpp: the event mask, the CPU slice,
the scheduler slice, an abstract tag for memory contents (0 after a clear),
whether the memory subsystem is initialized, whether the flash/storage image
is open, and the volatile exiting flag. -/
structure EmuState where
  events : EmuEvents
  arm : ArmState
  sched : Sched
  memory : Nat
  memoryInit : Bool
  flashOpen : Bool
  exiting : Bool
deriving DecidableEq, Repr

/-- Embeds emu_cleanup (emu.cpp lines 326-346): exiting = true, then
memory_reset(), memory_deinitialize() and flash_close(). The callees are
external; modelled from the spec 4.6: "sets exiting, ..., resets and
releases memory, closes storage". -/
def emu_cleanup (s : EmuState) : EmuState :=
  { s with exiting := true, memory := 0, memoryInit := false, flashOpen := false }

/-- Embeds the reset block of emu_loop (emu.cpp lines 225-237, label reset):
memset(mem_areas[1].ptr, 0, ...) and memory_reset() clear memory;
memset(&arm, 0, sizeof arm) zeroes the register file (so reg[15] = 0), then
arm.control = 0x00050078 and arm.cpsr_low28 = MODE_SVC | 0xC0;
cpu_events &= EVENT_DEBUG_STEP keeps exactly the single-step bit;
sched_reset() then re-arms the throttle slot. -/
def resetState (s : EmuState) : EmuState :=
  { s with
    memory := 0,
    arm := { pc := 0, control := 0x00050078, cpsr_low28 := MODE_SVC ||| 0xC0 },
    events := { reset := false, irq := false, fiq := false, waiting := false,
                debugStep := s.events.debugStep },
    sched := armThrottle sched_reset }

/-- Exception vectors passed to cpu_exception at emu.cpp line 273. -/
inductive ExVector
  | fiq
  | irq
deriving DecidableEq, Repr

/-- Embeds emu_loop lines 262-274: when an FIQ or IRQ event bit is pending,
align the program counter (arm.reg[15] &= ~1 in Thumb mode, i.e. when
cpsr_low28 & 0x20 is set, else &= ~3; over 32 bits ~1 is 0xFFFFFFFE and ~3
is 0xFFFFFFFC), add 4 if EVENT_WAITING is pending, add 4, and select the
vector for cpu_exception: EX_FIQ when EVENT_FIQ is set, else EX_IRQ.
Arithmetic on reg[15] is uint32, hence the mod 2^32. -/
def interruptDelivery (ev : EmuEvents) (a : ArmState) : ArmState × Option ExVector :=
  if ev.fiq = true ∨ ev.irq = true then
    let aligned := if a.cpsr_low28 &&& 0x20 ≠ 0 then a.pc &&& 0xFFFFFFFE
                   else a.pc &&& 0xFFFFFFFC
    let afterWait := if ev.waiting = true then (aligned + 4) % 2 ^ 32 else aligned
    let advanced := (afterWait + 4) % 2 ^ 32
    ({ a with pc := advanced },
     some (if ev.fiq = true then ExVector.fiq else ExVector.irq))
  else (a, none)

/-- Thumb test of emu.cpp lines 264 and 277: arm.cpsr_low28 & 0x20. -/
def isThumb (a : ArmState) : Bool := a.cpsr_low28 &&& 0x20 != 0

/-- The external collaborators called from emu_loop. sched_process and
sched_update_next act on cycle_count_delta; cpu_exception transforms the CPU
state; dispatch is cpu_thumb_loop/cpu_arm_loop (selected by the Bool),
transforming the emulator state and the cycle counter. -/
structure Collab where
  schedProcess : Int → Int
  schedUpdateNext : Int → Int
  cpuException : ExVector → ArmState → ArmState
  dispatch : Bool → EmuState → Int → EmuState × Int

/-- The state handed to the instruction dispatcher in one inner iteration of
emu_loop that is not a reset iteration (lines 262-275): interrupt delivery,
the external cpu_exception when a vector was taken, then
cpu_events &= ~EVENT_WAITING, which runs on every such iteration whether or
not an interrupt was pending. -/
def innerDispatchPrep (c : Collab) (s : EmuState) : EmuState × Option ExVector :=
  let p := interruptDelivery s.events s.arm
  let a2 := match p.2 with
    | some v => c.cpuException v p.1
    | none => p.1
  ({ s with arm := a2, events := { s.events with waiting := false } }, p.2)

/-- Control points of emu_loop: the reset block (label reset, lines
225-237), the pre-loop section (lines 240-252: gdbstub_reset through
sched_update_next_event(0), exiting = false and the setjmp checkpoint), the
outer while(!exiting) check (line 254), the inner
while(!exiting && cycle_count_delta < 0) check and body (lines 256-280), and
loop termination. -/
inductive Phase
  | resetBlock
  | preLoop
  | outerCheck
  | innerCheck
  | exited
deriving DecidableEq, Repr

/-- Observable events of one emu_loop run, in order: the "Reset" status
print at line 258, completion of the reset block, entry into cpu_exception,
and a call into cpu_thumb_loop/cpu_arm_loop. -/
inductive LoopEv
  | statusReset
  | resetPerformed
  | exceptionEntered (v : ExVector)
  | dispatched
deriving DecidableEq, Repr

/-- State of the emu_loop phase machine: control point, emulator state,
cycle_count_delta, and the trace of observable events so far. -/
structure LoopState where
  phase : Phase
  st : EmuState
  delta : Int
  trace : List LoopEv
deriving DecidableEq, Repr

/-- One small step of emu_loop (emu.cpp lines 221-283). The reset block
applies resetState and falls into the pre-loop section; the pre-loop section
clears exiting (line 247) and publishes the next-event delta; the outer
check terminates when exiting is set, else runs sched_process_pending_events
and enters the inner check; the inner check leaves the inner loop when
exiting is set or the cycle budget is exhausted, performs the reset goto
when EVENT_RESET is pending, and otherwise delivers interrupts, clears
EVENT_WAITING and dispatches one batch through cpu_thumb_loop or
cpu_arm_loop, selected by cpsr_low28 & 0x20 after exception entry. -/
def step (c : Collab) (ls : LoopState) : LoopState :=
  match ls.phase with
  | Phase.resetBlock =>
      { ls with phase := Phase.preLoop, st := resetState ls.st,
                trace := ls.trace ++ [LoopEv.resetPerformed] }
  | Phase.preLoop =>
      { ls with phase := Phase.outerCheck,
                st := { ls.st with exiting := false },
                delta := c.schedUpdateNext ls.delta }
  | Phase.outerCheck =>
      if ls.st.exiting = true then { ls with phase := Phase.exited }
      else { ls with phase := Phase.innerCheck, delta := c.schedProcess ls.delta }
  | Phase.innerCheck =>
      if ls.st.exiting = true ∨ 0 ≤ ls.delta then
        { ls with phase := Phase.outerCheck }
      else if ls.st.events.reset = true then
        { ls with phase := Phase.resetBlock, trace := ls.trace ++ [LoopEv.statusReset] }
      else
        let pr := innerDispatchPrep c ls.st
        let excTrace := match pr.2 with
          | some v => [LoopEv.exceptionEntered v]
          | none => []
        let r := c.dispatch (isThumb pr.1.arm) pr.1 ls.delta
        { phase := Phase.innerCheck, st := r.1, delta := r.2,
          trace := ls.trace ++ excTrace ++ [LoopEv.dispatched] }
  | Phase.exited => ls

/-- Iterated stepping of the emu_loop machine. -/
def stepN (c : Collab) : Nat → LoopState → LoopState
  | 0, ls => ls
  | n + 1, ls => stepN c n (step c ls)

/-- Entry into emu_loop(reset): the reset block is executed first exactly
when the argument is true (emu.cpp line 223). -/
def emuLoopEnter (reset : Bool) (st : EmuState) (delta : Int) : LoopState :=
  { phase := if reset = true then Phase.resetBlock else Phase.preLoop,
    st := st, delta := delta, trace := [] }

/-- An asynchronous exit request arriving between two steps: the volatile
exiting flag is set (spec 6: "sets the exiting flag, observed at the next
poll point"). -/
def requestExit (ls : LoopState) : LoopState :=
  { ls with st := { ls.st with exiting := true } }

/-- The point at which a longjmp from error() lands: the setjmp checkpoint
at emu.cpp line 251 sits directly before the outer while, so resumed control
continues at the outer check with state and trace as they were. -/
def checkpointLand (st : EmuState) (delta : Int) (trace : List LoopEv) : LoopState :=
  { phase := Phase.outerCheck, st := st, delta := delta, trace := trace }

/-- Outcomes a call to error() could conceivably have; the embedding of the
source selects which one it does have. -/
inductive ErrorOutcome
  | longjmpToCheckpoint
  | returnToCaller
  | processExit
deriving DecidableEq, Repr

/-- The fault report of error(): gui_debug_printf prints the formatted
message together with arm.reg[15]. -/
structure ErrorReport where
  pc : Nat
deriving DecidableEq, Repr

/-- Embeds error() (emu.cpp lines 66-77): report the fault with the current
program counter, optionally enter the debugger, set EVENT_RESET in
cpu_events, then __builtin_longjmp(restart_after_exception, 1). The
function is attribute noreturn: it neither returns to its caller nor exits
the process. -/
def errorStep (s : EmuState) : EmuState × ErrorOutcome × ErrorReport :=
  ({ s with events := { s.events with reset := true } },
   ErrorOutcome.longjmpToCheckpoint,
   { pc := s.arm.pc })

/-- Modelled from the spec: sizeof(emu_snapshot), the fixed header size of
the snapshot image ("fixed header size"; emu.h is not under src). A fixed
positive constant; the claims only compare the file size against it. -/
def snapshotHeaderSize : Nat := 1024

/-- The two snapshot-file fields emu_start reads before delegating: the file
size as reported by lseek, and the 32-bit signature field. -/
structure Snapshot where
  size : Nat
  sig : Nat
deriving DecidableEq, Repr

/-- External calls the snapshot branch of emu_start can make, in source
order: reading the signature field, flash_resume, flash_read_settings,
cpu_resume, memory_resume, sched_resume, and emu_cleanup on failure. -/
inductive ExtCall
  | sigRead
  | flashResume
  | flashReadSettings
  | cpuResume
  | memoryResume
  | schedResume
  | cleanup
deriving DecidableEq, Repr

/-- Boolean results of the external calls made by the snapshot branch of
emu_start: open(2) and mmap(2) on the snapshot file, and the five resume
delegates. The delegates live outside src; their success is an oracle and
their state effects are recorded only through the call trace. -/
structure ResumeOracle where
  openOk : Bool
  mmapOk : Bool
  flashResumeOk : Bool
  flashReadSettingsOk : Bool
  cpuResumeOk : Bool
  memoryResumeOk : Bool
  schedResumeOk : Bool
deriving DecidableEq, Repr

/-- Applies emu.cpp lines 132-133: if debug_on_start then
cpu_events |= EVENT_DEBUG_STEP. -/
def debugStartAdjust (debugOnStart : Bool) (s : EmuState) : EmuState :=
  if debugOnStart = true then { s with events := { s.events with debugStep := true } }
  else s

/-- Embeds the snapshot branch of emu_start (emu.cpp lines 130-171):
debug_on_start adjustment; open and mmap of the snapshot file (each failure
returns false); arming of the throttle slot (lines 152-153, before any
validation); then the short-circuit validation chain of lines 157-163 in
source order: size < sizeof(emu_snapshot), signature mismatch against
0xCAFEBEEF, flash_resume, flash_read_settings, cpu_resume, memory_resume,
sched_resume — any failure runs emu_cleanup and returns false. The returned
list records the external calls made, in order. -/
def emu_start_snapshot (oc : ResumeOracle) (snap : Snapshot) (debugOnStart : Bool)
    (s : EmuState) : Bool × EmuState × List ExtCall :=
  let s0 := debugStartAdjust debugOnStart s
  if oc.openOk = false then (false, s0, [])
  else if oc.mmapOk = false then (false, s0, [])
  else
    let s1 := { s0 with sched := armThrottle s0.sched }
    if snap.size < snapshotHeaderSize then
      (false, emu_cleanup s1, [ExtCall.cleanup])
    else if snap.sig ≠ 0xCAFEBEEF then
      (false, emu_cleanup s1, [ExtCall.sigRead, ExtCall.cleanup])
    else if oc.flashResumeOk = false then
      (false, emu_cleanup s1,
       [ExtCall.sigRead, ExtCall.flashResume, ExtCall.cleanup])
    else if oc.flashReadSettingsOk = false then
      (false, emu_cleanup s1,
       [ExtCall.sigRead, ExtCall.flashResume, ExtCall.flashReadSettings,
        ExtCall.cleanup])
    else if oc.cpuResumeOk = false then
      (false, emu_cleanup s1,
       [ExtCall.sigRead, ExtCall.flashResume, ExtCall.flashReadSettings,
        ExtCall.cpuResume, ExtCall.cleanup])
    else if oc.memoryResumeOk = false then
      (false, emu_cleanup s1,
       [ExtCall.sigRead, ExtCall.flashResume, ExtCall.flashReadSettings,
        ExtCall.cpuResume, ExtCall.memoryResume, ExtCall.cleanup])
    else if oc.schedResumeOk = false then
      (false, emu_cleanup s1,
       [ExtCall.sigRead, ExtCall.flashResume, ExtCall.flashReadSettings,
        ExtCall.cpuResume, ExtCall.memoryResume, ExtCall.schedResume,
        ExtCall.cleanup])
    else
      (true, s1,
       [ExtCall.sigRead, ExtCall.flashResume, ExtCall.flashReadSettings,
        ExtCall.cpuResume, ExtCall.memoryResume, ExtCall.schedResume])

/-- True exactly for the sub-region resume delegates among the external
calls of the snapshot branch. -/
def ExtCall.isSubResume : ExtCall → Bool
  | ExtCall.flashResume => true
  | ExtCall.cpuResume => true
  | ExtCall.memoryResume => true
  | ExtCall.schedResume => true
  | _ => false

/-- Boolean results of the external calls made by emu_suspend: open(2),
ftruncate(2), mmap(2), and the four suspend delegates (called in source
order flash, cpu, sched, memory). -/
structure SuspendOracle where
  openOk : Bool
  ftruncateOk : Bool
  mmapOk : Bool
  flashSuspendOk : Bool
  cpuSuspendOk : Bool
  schedSuspendOk : Bool
  memorySuspendOk : Bool
deriving DecidableEq, Repr

/-- Observable outcome of emu_suspend: the returned boolean; whether the
backing file exists afterwards; the value the signature field of the file
holds after the call when it was stored through a live mapping (none when no
live-mapping store of the signature happened); and whether the call stored
through the snapshot pointer after munmap, which is undefined behaviour. -/
structure SuspendOutcome where
  ret : Bool
  fileExists : Bool
  fileSig : Option Nat
  storeAfterUnmap : Bool
deriving DecidableEq, Repr

/-- Embeds emu_suspend (emu.cpp lines 285-324). open failure: return false,
no file. ftruncate or mmap failure: close and return false, file present
without a signature store. Then the header fields and path strings are
written and flash_suspend, cpu_suspend, sched_suspend, memory_suspend run
under short-circuit &&. When all succeed, snapshot->sig = 0xCAFEBEEF is the
last store through the live mapping, then munmap/close and return true.
When any delegate fails, the failure branch (lines 314-317) munmaps and
closes but does not return: control falls through to line 319, so
snapshot->sig = 0xCAFEBEEF is a store through the already-unmapped pointer
(it does not reach the file), and the function still returns true. -/
def emu_suspend (oc : SuspendOracle) : SuspendOutcome :=
  if oc.openOk = false then
    { ret := false, fileExists := false, fileSig := none, storeAfterUnmap := false }
  else if oc.ftruncateOk = false then
    { ret := false, fileExists := true, fileSig := none, storeAfterUnmap := false }
  else if oc.mmapOk = false then
    { ret := false, fileExists := true, fileSig := none, storeAfterUnmap := false }
  else if oc.flashSuspendOk = true ∧ oc.cpuSuspendOk = true
          ∧ oc.schedSuspendOk = true ∧ oc.memorySuspendOk = true then
    { ret := true, fileExists := true, fileSig := some 0xCAFEBEEF,
      storeAfterUnmap := false }
  else
    { ret := true, fileExists := true, fileSig := none, storeAfterUnmap := true }

/-- Embeds the ISO C strncpy(dst, src, n) semantics used at emu.cpp lines
307-308, acting on a buffer given as a byte list: the first n bytes of the
destination become the bytes of src (the bytes of the source string before
its terminator, given as a list), zero-padded once src is exhausted; bytes
of dst from position n on are left untouched. -/
def strncpyList : List Nat → List Nat → Nat → List Nat
  | dst, _, 0 => dst
  | [], _, _ + 1 => []
  | _ :: ds, [], m + 1 => 0 :: strncpyList ds [] m
  | _ :: ds, b :: bs, m + 1 => b :: strncpyList ds bs m

/-- Embeds one path-field write of emu_suspend (lines 307-308):
strncpy(snapshot->path, src, sizeof(snapshot->path) - 1). field is the prior
contents of the fixed-capacity field in the mapped file; src is the
configured path string. -/
def writePathField (field : List Nat) (src : List Nat) : List Nat :=
  strncpyList field src (field.length - 1)

/-- A stored path field is null-terminated when some byte of the field is
zero. -/
def nullTerminated (l : List Nat) : Prop := 0 ∈ l

instance (l : List Nat) : Decidable (nullTerminated l) := by
  unfold nullTerminated
  infer_instance

/-- The state of the speed measurement in throttle_interval_event: the
interval counter, its value at the previous measurement, and the last
computed speed. -/
structure ThrottleSpeedState where
  intervals : Int
  prevIntervals : Int
  speed : ℚ
deriving DecidableEq, Repr

/-- Embeds the speed formula of emu.cpp line 118:
speed = (double)10000 * (intervals - prev_intervals) / time. The source
computes in binary64; the model computes in ℚ (the values settled below are
exactly representable, so the two agree there). -/
def computeSpeed (intervals prevIntervals time : Int) : ℚ :=
  10000 * ((intervals : ℚ) - (prevIntervals : ℚ)) / (time : ℚ)

/-- Embeds emu.cpp lines 116-122: when the measured wall-clock window, in
microseconds, is at least 500000, recompute speed, report it through
gui_show_speed (the returned Bool), and latch prev_intervals; otherwise keep
the previous speed unreported. -/
def throttleSpeedCheck (st : ThrottleSpeedState) (time : Int) : ThrottleSpeedState × Bool :=
  if 500000 ≤ time then
    ({ st with speed := computeSpeed st.intervals st.prevIntervals time,
               prevIntervals := st.intervals }, true)
  else (st, false)

/-- Embeds the per-firing interval increment (line 98) followed by the speed
check of throttle_interval_event. -/
def throttleFire (st : ThrottleSpeedState) (time : Int) : ThrottleSpeedState × Bool :=
  throttleSpeedCheck { st with intervals := st.intervals + 1 } time

/-- A concrete emulator state used to instantiate universally quantified
theorems: no pending events, throttle slot cleared, flash open. -/
def exampleState : EmuState :=
  { events := { reset := false, irq := false, fiq := false, waiting := false,
                debugStep := false },
    arm := { pc := 0, control := 0, cpsr_low28 := 0 },
    sched := { throttle := { clock := none, proc := none } },
    memory := 7, memoryInit := true, flashOpen := true, exiting := false }

/-- A concrete collaborator record: the scheduler keeps the cycle counter,
cpu_exception is the identity on the CPU slice, and one dispatch consumes
one cycle. -/
def exampleCollab : Collab :=
  { schedProcess := fun d => d,
    schedUpdateNext := fun d => d,
    cpuException := fun _ a => a,
    dispatch := fun _ s d => (s, d + 1) }

/-- exampleState with the pending-reset and debug-step event bits set. -/
def resetPendingState : EmuState :=
  { exampleState with
    events := { exampleState.events with reset := true, debugStep := true } }

/-- exampleState with the exiting flag already set. -/
def exitRequestedState : EmuState := { exampleState with exiting := true }

lemma strncpyList_length (dst src : List Nat) (n : Nat) :
    (strncpyList dst src n).length = dst.length := by
  induction dst generalizing src n with
  | nil => cases n <;> simp [strncpyList]
  | cons dd ds ih =>
    cases n with
    | zero => simp [strncpyList]
    | succ m =>
      cases src with
      | nil => simp [strncpyList, ih]
      | cons b bs => simp [strncpyList, ih]

lemma getD_mem_of_lt (l : List Nat) (i d : Nat) (h : i < l.length) :
    l.getD i d ∈ l := by
  induction l generalizing i with
  | nil => simp at h
  | cons a l ih =>
    cases i with
    | zero => simp [List.getD]
    | succ j =>
      rw [List.getD_cons_succ]
      exact List.mem_cons_of_mem a (ih j (by simpa using Nat.succ_lt_succ_iff.mp h))

lemma strncpyList_getD_ge (dst src : List Nat) (n i d : Nat) (h : n ≤ i) :
    (strncpyList dst src n).getD i d = dst.getD i d := by
  induction dst generalizing src n i with
  | nil => cases n <;> simp [strncpyList]
  | cons dd ds ih =>
    cases n with
    | zero => simp [strncpyList]
    | succ m =>
      cases i with
      | zero => exact absurd h (by omega)
      | succ j =>
        cases src with
        | nil =>
          show (0 :: strncpyList ds [] m).getD (j + 1) d = (dd :: ds).getD (j + 1) d
          rw [List.getD_cons_succ, List.getD_cons_succ]
          exact ih [] m j (by omega)
        | cons b bs =>
          show (b :: strncpyList ds bs m).getD (j + 1) d = (dd :: ds).getD (j + 1) d
          rw [List.getD_cons_succ, List.getD_cons_succ]
          exact ih bs m j (by omega)

lemma strncpyList_getD_copy (dst src : List Nat) (n i d : Nat)
    (h1 : i < n) (h2 : i < src.length) (h3 : i < dst.length) :
    (strncpyList dst src n).getD i d = src.getD i d := by
  induction dst generalizing src n i with
  | nil => simp at h3
  | cons dd ds ih =>
    cases n with
    | zero => exact absurd h1 (by omega)
    | succ m =>
      cases src with
      | nil => simp at h2
      | cons b bs =>
        cases i with
        | zero => rfl
        | succ j =>
          show (b :: strncpyList ds bs m).getD (j + 1) d = (b :: bs).getD (j + 1) d
          rw [List.getD_cons_succ, List.getD_cons_succ]
          exact ih bs m j (by omega) (by simpa using Nat.succ_lt_succ_iff.mp h2)
            (by simpa using Nat.succ_lt_succ_iff.mp h3)

lemma strncpyList_pad_mem (dst src : List Nat) (n : Nat)
    (h1 : src.length < n) (h2 : src.length < dst.length) :
    (0 : Nat) ∈ strncpyList dst src n := by
  induction dst generalizing src n with
  | nil => simp at h2
  | cons dd ds ih =>
    cases n with
    | zero => exact absurd h1 (by omega)
    | succ m =>
      cases src with
      | nil => exact List.mem_cons_self 0 (strncpyList ds [] m)
      | cons b bs =>
        exact List.mem_cons_of_mem b
          (ih bs m (by simpa using Nat.succ_lt_succ_iff.mp h1)
            (by simpa using Nat.succ_lt_succ_iff.mp h2))

lemma step_resetBlock (c : Collab) (st : EmuState) (d : Int) (tr : List LoopEv) :
    step c { phase := Phase.resetBlock, st := st, delta := d, trace := tr }
      = { phase := Phase.preLoop, st := resetState st, delta := d,
          trace := tr ++ [LoopEv.resetPerformed] } := rfl

lemma step_preLoop (c : Collab) (st : EmuState) (d : Int) (tr : List LoopEv) :
    step c { phase := Phase.preLoop, st := st, delta := d, trace := tr }
      = { phase := Phase.outerCheck, st := { st with exiting := false },
          delta := c.schedUpdateNext d, trace := tr } := rfl

lemma step_outerCheck_exit (c : Collab) (st : EmuState) (d : Int) (tr : List LoopEv)
    (h : st.exiting = true) :
    step c { phase := Phase.outerCheck, st := st, delta := d, trace := tr }
      = { phase := Phase.exited, st := st, delta := d, trace := tr } := by
  simp [step, h]

lemma step_outerCheck_cont (c : Collab) (st : EmuState) (d : Int) (tr : List LoopEv)
    (h : st.exiting = false) :
    step c { phase := Phase.outerCheck, st := st, delta := d, trace := tr }
      = { phase := Phase.innerCheck, st := st, delta := c.schedProcess d,
          trace := tr } := by
  simp [step, h]

lemma step_innerCheck_leave (c : Collab) (st : EmuState) (d : Int) (tr : List LoopEv)
    (h : st.exiting = true ∨ (0 : Int) ≤ d) :
    step c { phase := Phase.innerCheck, st := st, delta := d, trace := tr }
      = { phase := Phase.outerCheck, st := st, delta := d, trace := tr } := by
  simp [step, h]

lemma step_innerCheck_reset (c : Collab) (st : EmuState) (d : Int) (tr : List LoopEv)
    (hx : st.exiting = false) (hd : d < 0) (hr : st.events.reset = true) :
    step c { phase := Phase.innerCheck, st := st, delta := d, trace := tr }
      = { phase := Phase.resetBlock, st := st, delta := d,
          trace := tr ++ [LoopEv.statusReset] } := by
  have hcond : ¬ (st.exiting = true ∨ (0 : Int) ≤ d) := by
    rintro (h | h)
    · rw [hx] at h
      exact Bool.false_ne_true h
    · omega
  simp [step, hcond, hr]

lemma step_innerCheck_dispatch (c : Collab) (st : EmuState) (d : Int)
    (tr : List LoopEv) (hx : st.exiting = false) (hd : d < 0)
    (hr : st.events.reset = false) :
    step c { phase := Phase.innerCheck, st := st, delta := d, trace := tr }
      = { phase := Phase.innerCheck,
          st := (c.dispatch (isThumb (innerDispatchPrep c st).1.arm)
                   (innerDispatchPrep c st).1 d).1,
          delta := (c.dispatch (isThumb (innerDispatchPrep c st).1.arm)
                      (innerDispatchPrep c st).1 d).2,
          trace := tr ++ (match (innerDispatchPrep c st).2 with
                          | some v => [LoopEv.exceptionEntered v]
                          | none => []) ++ [LoopEv.dispatched] } := by
  have hcond : ¬ (st.exiting = true ∨ (0 : Int) ≤ d) := by
    rintro (h | h)
    · rw [hx] at h
      exact Bool.false_ne_true h
    · omega
  simp [step, hcond, hr]

/-- Claim C1 (code divergence): with open, ftruncate and mmap succeeding and
flash_suspend failing, emu_suspend does not return false as the claim
requires: the failure branch lacks a return, so the function stores the
signature through the already-unmapped pointer (undefined behaviour, so the
file keeps no valid signature) and returns true. The last conjunct records
the intended behaviour on full success: the signature is stored, last,
through the live mapping. -/
theorem C1_sub_region_failure_divergence :
    (emu_suspend { openOk := true, ftruncateOk := true, mmapOk := true,
                   flashSuspendOk := false, cpuSuspendOk := true,
                   schedSuspendOk := true, memorySuspendOk := true }).ret = true ∧
    (emu_suspend { openOk := true, ftruncateOk := true, mmapOk := true,
                   flashSuspendOk := false, cpuSuspendOk := true,
                   schedSuspendOk := true, memorySuspendOk := true }).fileSig
      ≠ some 0xCAFEBEEF ∧
    (emu_suspend { openOk := true, ftruncateOk := true, mmapOk := true,
                   flashSuspendOk := false, cpuSuspendOk := true,
                   schedSuspendOk := true, memorySuspendOk := true }).storeAfterUnmap
      = true ∧
    (emu_suspend { openOk := true, ftruncateOk := true, mmapOk := true,
                   flashSuspendOk := true, cpuSuspendOk := true,
                   schedSuspendOk := true, memorySuspendOk := true }).fileSig
      = some 0xCAFEBEEF := by
  decide

/-- Claim C2: the snapshot branch of emu_start returns false whenever the
file is smaller than the fixed header size or the signature differs from
0xCAFEBEEF; and when the file is smaller than the header it fails without
reading the signature and without invoking any sub-region resume delegate. -/
theorem C2_snapshot_rejection (oc : ResumeOracle) (snap : Snapshot) (dbg : Bool)
    (s : EmuState) :
    ((snap.size < snapshotHeaderSize ∨ snap.sig ≠ 0xCAFEBEEF) →
       (emu_start_snapshot oc snap dbg s).1 = false) ∧
    (snap.size < snapshotHeaderSize →
       ExtCall.sigRead ∉ (emu_start_snapshot oc snap dbg s).2.2 ∧
       ∀ e ∈ (emu_start_snapshot oc snap dbg s).2.2, e.isSubResume = false) := by
  constructor
  · intro hd
    by_cases h1 : oc.openOk = false
    · simp [emu_start_snapshot, h1]
    · by_cases h2 : oc.mmapOk = false
      · simp [emu_start_snapshot, h1, h2]
      · rcases hd with hsz | hsig
        · simp [emu_start_snapshot, h1, h2, if_pos hsz]
        · by_cases h3 : snap.size < snapshotHeaderSize
          · simp [emu_start_snapshot, h1, h2, if_pos h3]
          · simp [emu_start_snapshot, h1, h2, h3, if_pos hsig]
  · intro hsz
    by_cases h1 : oc.openOk = false
    · constructor <;> simp [emu_start_snapshot, h1]
    · by_cases h2 : oc.mmapOk = false
      · constructor <;> simp [emu_start_snapshot, h1, h2]
      · constructor <;>
          simp [emu_start_snapshot, h1, h2, if_pos hsz, ExtCall.isSubResume]

/-- Witness for C2 at a concrete undersized snapshot. -/
theorem C2_snapshot_rejection_witness :
    (emu_start_snapshot
       { openOk := true, mmapOk := true, flashResumeOk := true,
         flashReadSettingsOk := true, cpuResumeOk := true,
         memoryResumeOk := true, schedResumeOk := true }
       { size := 0, sig := 0xCAFEBEEF } false exampleState).1 = false ∧
    ExtCall.sigRead ∉ (emu_start_snapshot
       { openOk := true, mmapOk := true, flashResumeOk := true,
         flashReadSettingsOk := true, cpuResumeOk := true,
         memoryResumeOk := true, schedResumeOk := true }
       { size := 0, sig := 0xCAFEBEEF } false exampleState).2.2 :=
  ⟨(C2_snapshot_rejection _ _ _ _).1 (Or.inl (by decide)),
   ((C2_snapshot_rejection _ _ _ _).2 (by decide)).1⟩

/-- Claim C3 counterexample: resuming a snapshot whose signature is
corrupted does return false, but it is not mutation-free: with the throttle
slot initially cleared, the failed emu_start leaves the slot armed (lines
152-153 run before the signature is validated), so the scheduler slot state
differs from its value before the call. -/
theorem C3_counterexample :
    (emu_start_snapshot
       { openOk := true, mmapOk := true, flashResumeOk := true,
         flashReadSettingsOk := true, cpuResumeOk := true,
         memoryResumeOk := true, schedResumeOk := true }
       { size := snapshotHeaderSize, sig := 0xCAFEBEEE } false exampleState).1 = false ∧
    (emu_start_snapshot
       { openOk := true, mmapOk := true, flashResumeOk := true,
         flashReadSettingsOk := true, cpuResumeOk := true,
         memoryResumeOk := true, schedResumeOk := true }
       { size := snapshotHeaderSize, sig := 0xCAFEBEEE } false exampleState).2.1.sched
      ≠ exampleState.sched := by
  decide

/-- Claim C3 (amended): with the file at least header-sized and the
signature corrupted, emu_start returns false and invokes no sub-region
resume, but the call does mutate state in a fixed way: it arms the throttle
slot, applies the debug_on_start adjustment, and runs emu_cleanup (exiting
set, memory cleared and deinitialized, storage closed). -/
theorem C3_corrupt_sig_no_resume (oc : ResumeOracle) (snap : Snapshot) (dbg : Bool)
    (s : EmuState) (ho : oc.openOk = true) (hm : oc.mmapOk = true)
    (hsz : snapshotHeaderSize ≤ snap.size) (hsig : snap.sig ≠ 0xCAFEBEEF) :
    (emu_start_snapshot oc snap dbg s).1 = false ∧
    (emu_start_snapshot oc snap dbg s).2.2 = [ExtCall.sigRead, ExtCall.cleanup] ∧
    (emu_start_snapshot oc snap dbg s).2.1 =
      emu_cleanup { debugStartAdjust dbg s with
                    sched := armThrottle (debugStartAdjust dbg s).sched } := by
  have h1 : ¬ (oc.openOk = false) := by simp [ho]
  have h2 : ¬ (oc.mmapOk = false) := by simp [hm]
  have h3 : ¬ (snap.size < snapshotHeaderSize) := Nat.not_lt.mpr hsz
  simp only [emu_start_snapshot, if_neg h1, if_neg h2, if_neg h3, if_pos hsig]
  refine ⟨?_, ?_, ?_⟩ <;> trivial

/-- Witness for the amended C3 at a concrete corrupted snapshot. -/
theorem C3_corrupt_sig_no_resume_witness :
    (emu_start_snapshot
       { openOk := true, mmapOk := true, flashResumeOk := true,
         flashReadSettingsOk := true, cpuResumeOk := true,
         memoryResumeOk := true, schedResumeOk := true }
       { size := snapshotHeaderSize, sig := 0 } false exampleState).1 = false ∧
    (emu_start_snapshot
       { openOk := true, mmapOk := true, flashResumeOk := true,
         flashReadSettingsOk := true, cpuResumeOk := true,
         memoryResumeOk := true, schedResumeOk := true }
       { size := snapshotHeaderSize, sig := 0 } false exampleState).2.2
      = [ExtCall.sigRead, ExtCall.cleanup] :=
  ⟨(C3_corrupt_sig_no_resume _ _ _ _ rfl rfl (le_refl _) (by decide)).1,
   (C3_corrupt_sig_no_resume _ _ _ _ rfl rfl (le_refl _) (by decide)).2.1⟩

/-- Claim C4: after every reset performed by the execution loop — the
explicit reset of emu_loop(true) and the one triggered by the pending-reset
event bit — the event mask carries no FIQ, IRQ, waiting or reset bit, the
program counter is 0, the control register is the power-on constant
0x00050078, the status register is MODE_SVC with IRQ and FIQ disabled, and
the throttle slot is re-armed with its clock and callback set. -/
theorem C4_reset_poweron :
    (∀ s : EmuState,
       (resetState s).events.fiq = false ∧ (resetState s).events.irq = false ∧
       (resetState s).events.waiting = false ∧ (resetState s).events.reset = false ∧
       (resetState s).arm.pc = 0 ∧ (resetState s).arm.control = 0x00050078 ∧
       (resetState s).arm.cpsr_low28 = MODE_SVC ||| 0xC0 ∧
       (resetState s).sched.throttle.clock = some ClockId.clock27M ∧
       (resetState s).sched.throttle.proc = some ProcId.throttleIntervalEvent) ∧
    (∀ (c : Collab) (ls : LoopState), ls.phase = Phase.resetBlock →
       (step c ls).st = resetState ls.st) ∧
    (∀ (c : Collab) (st : EmuState) (d : Int),
       (step c (emuLoopEnter true st d)).st = resetState st) ∧
    (∀ (c : Collab) (ls : LoopState), ls.phase = Phase.innerCheck →
       ls.st.exiting = false → ls.delta < 0 → ls.st.events.reset = true →
       (step c (step c ls)).st = resetState ls.st) := by
  refine ⟨fun s => ⟨rfl, rfl, rfl, rfl, rfl, rfl, rfl, rfl, rfl⟩, ?_, ?_, ?_⟩
  · intro c ls h
    rcases ls with ⟨ph, st, d, tr⟩
    cases h
    rfl
  · intro c st d
    rfl
  · intro c ls h1 h2 h3 h4
    rcases ls with ⟨ph, st, d, tr⟩
    cases h1
    have h2a : st.exiting = false := h2
    have h3a : d < 0 := h3
    have h4a : st.events.reset = true := h4
    rw [step_innerCheck_reset c st d tr h2a h3a h4a, step_resetBlock]

/-- Witness for C4: the reset block and the pending-reset path both land in
the power-on state at a concrete input. -/
theorem C4_reset_poweron_witness :
    (resetState exampleState).arm.control = 0x00050078 ∧
    (step exampleCollab
       { phase := Phase.resetBlock, st := exampleState, delta := 0, trace := [] }).st
      = resetState exampleState ∧
    (step exampleCollab (step exampleCollab
       { phase := Phase.innerCheck, st := resetPendingState, delta := -1,
         trace := [] })).st = resetState resetPendingState := by
  obtain ⟨h1, h2, h3, h4⟩ := C4_reset_poweron
  exact ⟨(h1 exampleState).2.2.2.2.2.1,
         h2 exampleCollab _ rfl,
         h4 exampleCollab _ rfl rfl (by decide) rfl⟩

/-- Claim C5: in every non-reset inner iteration with FIQ or IRQ pending,
the program counter is masked with the 32-bit complement of 1 in Thumb mode
(cpsr bit 0x20 set) or of 3 in ARM mode, advanced 4 further when the
wait-for-interrupt bit was pending, then advanced past the current
instruction, and the exception path receives the FIQ vector whenever FIQ is
pending (priority over IRQ); the wait-for-interrupt bit is cleared before
dispatch on every such iteration whether or not an interrupt was pending. -/
theorem C5_interrupt_delivery (ev : EmuEvents) (a : ArmState)
    (hpend : ev.fiq = true ∨ ev.irq = true) :
    ((interruptDelivery ev a).1.pc =
       ((if a.cpsr_low28 &&& 0x20 ≠ 0 then a.pc &&& 0xFFFFFFFE
         else a.pc &&& 0xFFFFFFFC)
          + (if ev.waiting = true then 4 else 0) + 4) % 2 ^ 32) ∧
    (ev.fiq = true → (interruptDelivery ev a).2 = some ExVector.fiq) ∧
    (ev.fiq = false → (interruptDelivery ev a).2 = some ExVector.irq) ∧
    (∀ (c : Collab) (s : EmuState), (innerDispatchPrep c s).1.events.waiting = false) ∧
    (∀ (c : Collab) (ls : LoopState), ls.phase = Phase.innerCheck →
       ls.st.exiting = false → ls.delta < 0 → ls.st.events.reset = false →
       ls.st.events.fiq = true →
       (step c ls).trace
         = ls.trace ++ [LoopEv.exceptionEntered ExVector.fiq, LoopEv.dispatched]) := by
  refine ⟨?_, fun hf => ?_, fun hf => ?_, fun c s => rfl, ?_⟩
  · rcases hpend with hf | hi
    · cases hw : ev.waiting <;> simp [interruptDelivery, hf, hw, Nat.mod_add_mod]
    · cases hw : ev.waiting <;> simp [interruptDelivery, hi, hw, Nat.mod_add_mod]
  · simp [interruptDelivery, hpend, hf]
  · rcases hpend with hp | hp
    · rw [hf] at hp
      exact absurd hp (by decide)
    · simp [interruptDelivery, hp, hf]
  · intro c ls h1 h2 h3 h4 h5
    rcases ls with ⟨ph, st, d, tr⟩
    cases h1
    have h2a : st.exiting = false := h2
    have h3a : d < 0 := h3
    have h4a : st.events.reset = false := h4
    have h5a : st.events.fiq = true := h5
    rw [step_innerCheck_dispatch c st d tr h2a h3a h4a]
    have hvec : (innerDispatchPrep c st).2 = some ExVector.fiq := by
      simp [innerDispatchPrep, interruptDelivery, h5a]
    simp [hvec]

/-- Witness for C5 at a concrete Thumb-mode state with FIQ, IRQ and the
wait bit pending: the FIQ vector is taken and the program counter is
aligned, stepped over the wait instruction and past the current one. -/
theorem C5_interrupt_delivery_witness :
    (interruptDelivery
       { reset := false, irq := true, fiq := true, waiting := true,
         debugStep := false }
       { pc := 0x1003, control := 0, cpsr_low28 := 0x20 }).2
      = some ExVector.fiq ∧
    (interruptDelivery
       { reset := false, irq := true, fiq := true, waiting := true,
         debugStep := false }
       { pc := 0x1003, control := 0, cpsr_low28 := 0x20 }).1.pc = 0x100A :=
  ⟨(C5_interrupt_delivery _ _ (Or.inl rfl)).2.1 rfl,
   ((C5_interrupt_delivery _ _ (Or.inl rfl)).1).trans (by decide)⟩

/-- Claim C6: error() reports the fault with the current program counter,
sets the pending-reset bit and transfers control to the checkpoint instead
of returning or exiting the process; once landed, the loop performs a full
machine reset at its very next pending-reset check, and while the reset bit
is pending no step dispatches an instruction or enters an exception. -/
theorem C6_fault_recovery :
    (∀ s : EmuState,
       (errorStep s).2.1 = ErrorOutcome.longjmpToCheckpoint ∧
       (errorStep s).2.1 ≠ ErrorOutcome.processExit ∧
       (errorStep s).2.2.pc = s.arm.pc ∧
       (errorStep s).1.events.reset = true) ∧
    (∀ (c : Collab) (ls : LoopState), ls.phase = Phase.innerCheck →
       ls.st.exiting = false → ls.delta < 0 → ls.st.events.reset = true →
       (step c ls).phase = Phase.resetBlock ∧
       (step c ls).trace = ls.trace ++ [LoopEv.statusReset] ∧
       (step c (step c ls)).st = resetState ls.st ∧
       (step c (step c ls)).phase = Phase.preLoop) ∧
    (∀ (c : Collab) (ls : LoopState), ls.st.events.reset = true →
       ∃ t, (step c ls).trace = ls.trace ++ t ∧
            LoopEv.dispatched ∉ t ∧ ∀ v, LoopEv.exceptionEntered v ∉ t) := by
  refine ⟨fun s => ⟨rfl, fun h => ErrorOutcome.noConfusion h, rfl, rfl⟩, ?_, ?_⟩
  · intro c ls h1 h2 h3 h4
    rcases ls with ⟨ph, st, d, tr⟩
    cases h1
    have h2a : st.exiting = false := h2
    have h3a : d < 0 := h3
    have h4a : st.events.reset = true := h4
    rw [step_innerCheck_reset c st d tr h2a h3a h4a, step_resetBlock]
    exact ⟨rfl, rfl, rfl, rfl⟩
  · intro c ls h
    rcases ls with ⟨ph, st, d, tr⟩
    have ha : st.events.reset = true := h
    cases ph
    case resetBlock =>
      exact ⟨[LoopEv.resetPerformed], by rw [step_resetBlock], by simp,
        by intro v; simp⟩
    case preLoop =>
      exact ⟨[], by rw [step_preLoop]; simp, by simp, by intro v; simp⟩
    case outerCheck =>
      by_cases hx : st.exiting = true
      · exact ⟨[], by rw [step_outerCheck_exit c st d tr hx]; simp, by simp,
          by intro v; simp⟩
      · exact ⟨[], by
          rw [step_outerCheck_cont c st d tr (by simpa using hx)]; simp, by simp,
          by intro v; simp⟩
    case innerCheck =>
      by_cases hx : st.exiting = true ∨ (0 : Int) ≤ d
      · exact ⟨[], by rw [step_innerCheck_leave c st d tr hx]; simp, by simp,
          by intro v; simp⟩
      · have hxe : st.exiting = false := by
          cases hb : st.exiting
          · rfl
          · exact absurd (Or.inl hb) hx
        have hxd : d < 0 := by
          by_contra hc
          exact hx (Or.inr (by omega))
        exact ⟨[LoopEv.statusReset],
          by rw [step_innerCheck_reset c st d tr hxe hxd ha], by simp,
          by intro v; simp⟩
    case exited =>
      exact ⟨[], by simp [step], by simp, by intro v; simp⟩

/-- Witness for C6: the fault path at a concrete state, followed by the
reset performed at the next check of a concrete loop state. -/
theorem C6_fault_recovery_witness :
    (errorStep exampleState).2.1 = ErrorOutcome.longjmpToCheckpoint ∧
    (errorStep exampleState).1.events.reset = true ∧
    (step exampleCollab (step exampleCollab
       { phase := Phase.innerCheck, st := resetPendingState, delta := -1,
         trace := [] })).st = resetState resetPendingState := by
  obtain ⟨h1, h2, h3⟩ := C6_fault_recovery
  exact ⟨(h1 exampleState).1, (h1 exampleState).2.2.2,
         (h2 exampleCollab _ rfl rfl (by decide) rfl).2.2.1⟩

/-- Claim C7 counterexample: an exit request issued after start but before
emu_loop enters its loop is not observed at the next poll point: emu_loop
clears the exiting flag during initialization (line 247), so the loop runs
on — three steps later an instruction batch has been dispatched, the loop
has not terminated, and the request has been erased. -/
theorem C7_counterexample :
    (emuLoopEnter false exitRequestedState (-1)).st.exiting = true ∧
    (stepN exampleCollab 3 (emuLoopEnter false exitRequestedState (-1))).phase
      ≠ Phase.exited ∧
    LoopEv.dispatched
      ∈ (stepN exampleCollab 3 (emuLoopEnter false exitRequestedState (-1))).trace ∧
    (stepN exampleCollab 3 (emuLoopEnter false exitRequestedState (-1))).st.exiting
      = false := by
  decide

/-- Claim C7 (amended): once emu_loop is past its entry initialization,
every setting of the exiting flag is observed at the next poll point — the
top of the outer loop or the top of the inner loop — and terminates the
loop there with no further dispatch. -/
theorem C7_exit_polled (c : Collab) (ls : LoopState) :
    (ls.phase = Phase.outerCheck → ls.st.exiting = true →
       (step c ls).phase = Phase.exited ∧ (step c ls).trace = ls.trace) ∧
    (ls.phase = Phase.innerCheck → ls.st.exiting = true →
       (step c ls).phase = Phase.outerCheck ∧ (step c ls).trace = ls.trace ∧
       (step c (step c ls)).phase = Phase.exited) ∧
    (ls.phase = Phase.outerCheck →
       (step c (requestExit ls)).phase = Phase.exited) ∧
    (ls.phase = Phase.innerCheck →
       (step c (step c (requestExit ls))).phase = Phase.exited) := by
  rcases ls with ⟨ph, st, d, tr⟩
  refine ⟨fun h1 h2 => ?_, fun h1 h2 => ?_, fun h1 => ?_, fun h1 => ?_⟩
  · cases h1
    have h2a : st.exiting = true := h2
    rw [step_outerCheck_exit c st d tr h2a]
    exact ⟨rfl, rfl⟩
  · cases h1
    have h2a : st.exiting = true := h2
    rw [step_innerCheck_leave c st d tr (Or.inl h2a)]
    rw [step_outerCheck_exit c st d tr h2a]
    exact ⟨rfl, rfl, rfl⟩
  · cases h1
    show (step c { phase := Phase.outerCheck, st := { st with exiting := true },
                   delta := d, trace := tr }).phase = Phase.exited
    rw [step_outerCheck_exit c { st with exiting := true } d tr rfl]
  · cases h1
    show (step c (step c { phase := Phase.innerCheck,
                           st := { st with exiting := true }, delta := d,
                           trace := tr })).phase = Phase.exited
    rw [step_innerCheck_leave c { st with exiting := true } d tr (Or.inl rfl)]
    rw [step_outerCheck_exit c { st with exiting := true } d tr rfl]

/-- Witness for the amended C7: at a concrete inner-loop poll point with the
exiting flag set, the loop reaches the terminal phase in two steps. -/
theorem C7_exit_polled_witness :
    (step exampleCollab (step exampleCollab
       { phase := Phase.innerCheck, st := exitRequestedState, delta := -1,
         trace := [] })).phase = Phase.exited :=
  ((C7_exit_polled exampleCollab
      { phase := Phase.innerCheck, st := exitRequestedState, delta := -1,
        trace := [] }).2.1 rfl rfl).2.2

/-- Claim C8 counterexample: 10000 interval increments over a measured
500000-microsecond window yield a reported speed of 200, not the claimed
ratio of 1. -/
theorem C8_counterexample :
    (throttleSpeedCheck
       { intervals := 10000, prevIntervals := 0, speed := 1 } 500000).1.speed = 200 ∧
    (throttleSpeedCheck
       { intervals := 10000, prevIntervals := 0, speed := 1 } 500000).1.speed ≠ 1 := by
  constructor <;> norm_num [throttleSpeedCheck, computeSpeed]

/-- Claim C8 (amended): whenever the measured window is at least 500000
microseconds the speed is recomputed and reported as 10000 times the
interval increments divided by the window length in microseconds; 50
increments over a 500000-microsecond window (the 100 Hz nominal rate for
half a second) report a ratio of 1, and 10000 increments over that window
would report 200. -/
theorem C8_speed_formula (st : ThrottleSpeedState) (time : Int)
    (h : 500000 ≤ time) :
    (throttleSpeedCheck st time).2 = true ∧
    (throttleSpeedCheck st time).1.speed =
      10000 * ((st.intervals : ℚ) - (st.prevIntervals : ℚ)) / (time : ℚ) ∧
    computeSpeed 50 0 500000 = 1 ∧
    computeSpeed 10000 0 500000 = 200 := by
  unfold throttleSpeedCheck
  rw [if_pos h]
  exact ⟨rfl, rfl, by norm_num [computeSpeed], by norm_num [computeSpeed]⟩

/-- Witness for the amended C8 at a concrete measurement. -/
theorem C8_speed_formula_witness :
    (throttleSpeedCheck
       { intervals := 10, prevIntervals := 0, speed := 1 } 600000).2 = true ∧
    computeSpeed 50 0 500000 = 1 :=
  ⟨(C8_speed_formula { intervals := 10, prevIntervals := 0, speed := 1 } 600000
      (by decide)).1,
   (C8_speed_formula { intervals := 10, prevIntervals := 0, speed := 1 } 600000
      (by decide)).2.2.1⟩

/-- Claim C9 counterexample: the path-field write of emu_suspend is not
always left null-terminated: strncpy with count capacity minus one never
stores the final byte, so a path at least as long as the capacity written
over a field whose final byte was nonzero (here a capacity-4 field holding
1,1,1,1 from a previous snapshot) leaves no zero byte in the field. -/
theorem C9_counterexample :
    ¬ nullTerminated (writePathField [1, 1, 1, 1] [65, 66, 67, 68, 69]) ∧
    (writePathField [1, 1, 1, 1] [65, 66, 67, 68, 69]).length = 4 := by
  decide

/-- Claim C9 (amended): the path strings stored by emu_suspend are truncated
to the field capacity (the field length is preserved and the first
capacity-minus-one bytes copy the path); the field is null-terminated
whenever the path is shorter than capacity minus one (strncpy zero-pads), or
whenever the final byte of the field was already zero — but the final byte
is never written, so termination is not guaranteed for longer paths over a
nonzero final byte. -/
theorem C9_path_truncation (field src : List Nat) (hlen : 0 < field.length) :
    (writePathField field src).length = field.length ∧
    (∀ i d, i < field.length - 1 → i < src.length →
       (writePathField field src).getD i d = src.getD i d) ∧
    (src.length < field.length - 1 → nullTerminated (writePathField field src)) ∧
    (field.getD (field.length - 1) 0 = 0 →
       nullTerminated (writePathField field src)) := by
  refine ⟨strncpyList_length field src (field.length - 1), ?_, ?_, ?_⟩
  · intro i d h1 h2
    exact strncpyList_getD_copy field src (field.length - 1) i d h1 h2 (by omega)
  · intro h
    exact strncpyList_pad_mem field src (field.length - 1) h (by omega)
  · intro h
    have hmem : (strncpyList field src (field.length - 1)).getD (field.length - 1) 0
        ∈ strncpyList field src (field.length - 1) := by
      apply getD_mem_of_lt
      rw [strncpyList_length]
      omega
    rw [strncpyList_getD_ge field src (field.length - 1) (field.length - 1) 0
      (le_refl _), h] at hmem
    exact hmem

/-- Witness for the amended C9: a short path over a zeroed fresh field is
copied, truncated and null-terminated. -/
theorem C9_path_truncation_witness :
    (writePathField [0, 0, 0, 0] [65, 66]).length = 4 ∧
    nullTerminated (writePathField [0, 0, 0, 0] [65, 66]) :=
  ⟨(C9_path_truncation [0, 0, 0, 0] [65, 66] (by decide)).1,
   (C9_path_truncation [0, 0, 0, 0] [65, 66] (by decide)).2.2.1 (by decide)⟩

/-- Claim C10: the reset path of the execution loop clears every event bit
except EVENT_DEBUG_STEP and preserves the debug-step bit exactly, so a
pending single-step request survives a machine reset. -/
theorem C10_debug_step_survives_reset :
    (∀ s : EmuState,
       (resetState s).events =
         { reset := false, irq := false, fiq := false, waiting := false,
           debugStep := s.events.debugStep }) ∧
    (∀ (c : Collab) (ls : LoopState), ls.phase = Phase.resetBlock →
       (step c ls).st.events =
         { reset := false, irq := false, fiq := false, waiting := false,
           debugStep := ls.st.events.debugStep }) := by
  refine ⟨fun s => rfl, ?_⟩
  intro c ls h
  rcases ls with ⟨ph, st, d, tr⟩
  cases h
  rfl

/-- Witness for C10: a set debug-step bit is still set after the reset
block, all other bits cleared. -/
theorem C10_debug_step_survives_reset_witness :
    (step exampleCollab
       { phase := Phase.resetBlock, st := resetPendingState, delta := 0,
         trace := [] }).st.events =
      { reset := false, irq := false, fiq := false, waiting := false,
        debugStep := resetPendingState.events.debugStep } :=
  C10_debug_step_survives_reset.2 exampleCollab _ rfl

end Firebird
